import Mathlib

/-!
Verification development for the r2bit Contract Analyzer repository.

The development shallowly embeds the three source files:
  * `src/utils/llm.py`      — credential resolution (`get_api_key`), the model
    dispatcher (`call_llm_api`) and the two provider helpers
    (`_call_openai`, `_call_anthropic`);
  * `src/utils/prompt.py`   — the template store (`PROMPT_TEMPLATES`) and the
    prompt formatter (`format_prompt`), together with a model of Python
    `str.format` restricted to the plain named fields this program uses;
  * `src/streamlit_app.py`  — the PDF text extraction helper
    (`extract_text_from_pdf`).

External effects (environment variables, the `.env` loader, the Streamlit
secrets store, SDK client construction and the network requests) are made
explicit as inputs: fallible steps are oracles returning `Except String α`,
where `.error msg` models a raised Python exception whose `str(e)` is `msg`.
A Lean function returning `Except String α` therefore models a Python
function that may raise; a plain result models a function that cannot.
-/

/-! ### Small Python-semantics helpers -/

/-- Python truthiness of an optional string (`if key:`): `None` and `""`
are falsy, every other string is truthy. -/
def pyTruthy : Option String → Bool
  | none => false
  | some s => s != ""

/-- Python `x or y` on optional strings: yields `x` when `x` is truthy,
otherwise `y`. -/
def pyOr (x y : Option String) : Option String :=
  if pyTruthy x then x else y

/-- The apostrophe character (codepoint 39). -/
def aposChar : Char := Char.ofNat 39

/-- The apostrophe as a one-character string. -/
def apos : String := String.singleton aposChar

/-- The characters removed by the Python call `key.strip(...)` with the
two quote characters as its argument. -/
def isQuoteChar (c : Char) : Bool :=
  c == '"' || c == aposChar

/-- Python `s.strip(chars)` for a character predicate: remove every leading
and trailing character satisfying `p`. -/
def stripChars (p : Char → Bool) (s : String) : String :=
  String.mk (((s.data.dropWhile p).reverse.dropWhile p).reverse)

/-- `key.strip(...)` with the double-quote/apostrophe character set, as used
by `get_api_key` (src/utils/llm.py). -/
def stripQuotes (s : String) : String := stripChars isQuoteChar s

/-- The whitespace characters of Python `str.strip()` (ASCII range; the
codepoints 11 and 12 are vertical tab and form feed). -/
def pyIsSpace (c : Char) : Bool :=
  c == ' ' || c == '\t' || c == '\n' || c == '\r' ||
    c == Char.ofNat 11 || c == Char.ofNat 12

/-- Python `s.strip()`: remove leading and trailing whitespace. -/
def pyStrip (s : String) : String := stripChars pyIsSpace s

/-- Python `provider.lower()` (the provider names used here are ASCII). -/
def pyLower (s : String) : String := String.mk (s.data.map Char.toLower)

/-- `sub` occurs verbatim inside `s`. -/
def ContainsSub (s sub : String) : Prop := ∃ a b, s = a ++ (sub ++ b)

/-! ### src/utils/llm.py — credential resolution

`get_api_key` consults, in order: the process environment, the environment
again after `load_dotenv()`, and the Streamlit secrets store (its `default`
section, then its top level).  A `KeyEnv` records the observable outcome of
each of these external lookups, plus whether the dynamic
`import streamlit / from dotenv import load_dotenv / load_dotenv()` step
raises (`loadFail`, swallowed by the function-wide `except` which returns
`""`) and whether touching `st.secrets` raises (`secretsFail`, swallowed by
the inner `except`, after which the function falls through to its final
`return ""`). -/

structure KeyEnv where
  /-- `os.environ.get name` before `load_dotenv()`. -/
  env : String → Option String
  /-- `os.environ.get name` after `load_dotenv()`. -/
  env2 : String → Option String
  /-- the dynamic imports or `load_dotenv()` raise. -/
  loadFail : Bool
  /-- accessing `st.secrets` raises. -/
  secretsFail : Bool
  /-- `st.secrets.get("default", {}).get name`. -/
  secretsDefault : String → Option String
  /-- `st.secrets.get name`. -/
  secretsTop : String → Option String

/-- `get_api_key` (src/utils/llm.py lines 29-112).  Total by construction:
every exception the Python body can raise is caught by its own handlers,
which return `""`. -/
def get_api_key (e : KeyEnv) (provider : String) : String :=
  let p := pyLower provider
  if p == "openai" || p == "anthropic" then
    let varName := if p == "openai" then "OPENAI_API_KEY" else "ANTHROPIC_API_KEY"
    let key := e.env varName
    if pyTruthy key then stripQuotes (key.getD "")
    else if e.loadFail then ""
    else
      let key := e.env2 varName
      if pyTruthy key then stripQuotes (key.getD "")
      else if e.secretsFail then ""
      else
        let key := pyOr (e.secretsDefault varName) (e.secretsTop varName)
        if pyTruthy key then stripQuotes (key.getD "")
        else ""
  else ""

/-- First truthy entry of a list of optional strings (specification-side
helper for the documented lookup order). -/
def firstTruthy : List (Option String) → Option String
  | [] => none
  | o :: rest => if pyTruthy o then o else firstTruthy rest

/-! ### src/utils/llm.py — dispatcher and provider helpers -/

/-- Python `s.startswith(pre)`. -/
def pyStartsWith (s pre : String) : Bool := pre.data.isPrefixOf s.data

/-- `call_llm_api` (src/utils/llm.py lines 114-166).  The two provider
helpers are passed as oracles of type
`prompt → model → extra → Except String String`; `temperature`,
`max_tokens` and `**kwargs` are forwarded untouched, so they are packaged
in the opaque `extra` argument.  An `.error msg` outcome of an oracle
models the helper raising, which the dispatcher-wide `except` converts to
`"Error calling LLM API: " ++ msg`. -/
def call_llm_api {Extra : Type}
    (openaiImpl anthropicImpl : String → String → Extra → Except String String)
    (prompt model : String) (extra : Extra) : String :=
  if pyStartsWith model "gpt" then
    match openaiImpl prompt model extra with
    | .ok s => s
    | .error e => "Error calling LLM API: " ++ e
  else if pyStartsWith model "claude" then
    match anthropicImpl prompt model extra with
    | .ok s => s
    | .error e => "Error calling LLM API: " ++ e
  else
    "Error: Unsupported model " ++ apos ++ model ++ apos

/-- `response.choices[i].message` of the OpenAI SDK. -/
structure OpenAIMessage where
  content : Option String

/-- one element of `response.choices`. -/
structure OpenAIChoice where
  message : OpenAIMessage

/-- the response of `client.chat.completions.create`. -/
structure OpenAIResponse where
  choices : List OpenAIChoice

/-- The external world of `_call_openai`: the credential environment, the
`OpenAI(api_key=...)` constructor and the
`client.chat.completions.create(...)` request (its `model`, `messages`,
`temperature`, `max_tokens`, `**kwargs` arguments beyond the prompt and the
model name are packaged in `Extra`). -/
structure OpenAIWorld (Extra Client : Type) where
  env : KeyEnv
  newClient : String → Except String Client
  complete : Client → String → String → Extra → Except String OpenAIResponse

/-- `_call_openai` (src/utils/llm.py lines 168-237).  The whole Python body
sits inside one `try`, so every modeled exception is converted to an
`"Error: OpenAI API error: ..."` text and the result is always `.ok`. -/
def _call_openai {Extra Client : Type} (w : OpenAIWorld Extra Client)
    (prompt model : String) (extra : Extra) : Except String String :=
  let api_key := get_api_key w.env "openai"
  if api_key == "" then
    .ok "Error: OpenAI API key not found. Please set it in .streamlit/secrets.toml or .env file."
  else
    match w.newClient api_key with
    | .error e => .ok ("Error: OpenAI API error: " ++ e)
    | .ok client =>
      match w.complete client prompt model extra with
      | .error e => .ok ("Error: OpenAI API error: " ++ e)
      | .ok response =>
        match response.choices with
        | [] => .ok "Error: No response content from the model."
        | choice :: _ =>
          match choice.message.content with
          | none => .ok "Error: No response content from the model."
          | some text =>
            if text == "" then .ok "Error: No response content from the model."
            else .ok (pyStrip text)

/-- The external world of `_call_anthropic`: the credential environment,
the `anthropic.Anthropic(api_key=...)` constructor (note that the source
never imports `anthropic`, so in the shipped program this step always
raises `NameError`), the `client.messages.create(...)` request, and the
`response.content[0].text` access (which can raise, e.g. `IndexError` on an
empty content list). -/
structure AnthropicWorld (Extra Client Resp : Type) where
  env : KeyEnv
  newClient : String → Except String Client
  create : Client → String → String → Extra → Except String Resp
  contentText : Resp → Except String String

/-- `_call_anthropic` (src/utils/llm.py lines 239-296).  The client
construction happens BEFORE the `try` block, so a constructor exception
propagates (`.error`); exceptions inside the `try` (the request and the
content access) are converted to `"Anthropic API error: ..."` text. -/
def _call_anthropic {Extra Client Resp : Type} (w : AnthropicWorld Extra Client Resp)
    (prompt model : String) (extra : Extra) : Except String String :=
  let api_key := get_api_key w.env "anthropic"
  if api_key == "" then
    .ok "Error: Anthropic API key not found. Please add it to your .streamlit/secrets.toml file."
  else
    match w.newClient api_key with
    | .error e => .error e
    | .ok client =>
      match w.create client prompt model extra with
      | .error e => .ok ("Anthropic API error: " ++ e)
      | .ok response =>
        match w.contentText response with
        | .error e => .ok ("Anthropic API error: " ++ e)
        | .ok text => .ok text

/-! ### Theorems about the dispatcher -/

/-- A model identifier cannot start with both `"gpt"` and `"claude"`. -/
theorem not_gpt_and_claude (m : String) :
    pyStartsWith m "gpt" = true → pyStartsWith m "claude" = true → False := by
  intro h1 h2
  rw [pyStartsWith] at h1 h2
  have e1 : ("gpt".data) = ['g', 'p', 't'] := rfl
  have e2 : ("claude".data) = ['c', 'l', 'a', 'u', 'd', 'e'] := rfl
  rw [e1] at h1
  rw [e2] at h2
  cases hm : m.data with
  | nil => rw [hm] at h1; simp [List.isPrefixOf] at h1
  | cons b bs =>
    rw [hm] at h1 h2
    simp [List.isPrefixOf] at h1 h2
    have hg : b = 'g' := h1.1.symm
    have hc : b = 'c' := h2.1.symm
    rw [hg] at hc
    exact absurd hc (by decide)

/-- C1: `call_llm_api` routes purely by model-identifier prefix: a `"gpt"`
prefix goes to the OpenAI-shaped helper, a `"claude"` prefix to the
Anthropic-shaped helper, and any other identifier yields
`"Error: Unsupported model '<identifier>'"` (which contains the substring
`"Unsupported model"`) without invoking either helper (the result does not
depend on the helper oracles). -/
theorem call_llm_api_routing {Extra : Type}
    (openaiImpl anthropicImpl : String → String → Extra → Except String String)
    (prompt model : String) (extra : Extra) :
    (pyStartsWith model "gpt" = true → ∀ s, openaiImpl prompt model extra = .ok s →
      call_llm_api openaiImpl anthropicImpl prompt model extra = s) ∧
    (pyStartsWith model "claude" = true → ∀ s, anthropicImpl prompt model extra = .ok s →
      call_llm_api openaiImpl anthropicImpl prompt model extra = s) ∧
    (pyStartsWith model "gpt" = false → pyStartsWith model "claude" = false →
      call_llm_api openaiImpl anthropicImpl prompt model extra
          = "Error: Unsupported model " ++ apos ++ model ++ apos ∧
      ContainsSub (call_llm_api openaiImpl anthropicImpl prompt model extra)
          "Unsupported model" ∧
      ∀ (f g : String → String → Extra → Except String String),
        call_llm_api openaiImpl anthropicImpl prompt model extra
          = call_llm_api f g prompt model extra) := by
  refine ⟨?_, ?_, ?_⟩
  · intro h s hs
    simp [call_llm_api, h, hs]
  · intro h s hs
    have hg : pyStartsWith model "gpt" = false := by
      cases hgp : pyStartsWith model "gpt" with
      | false => rfl
      | true => exact absurd (not_gpt_and_claude model hgp h) (by simp)
    simp [call_llm_api, h, hg, hs]
  · intro h1 h2
    have heq : call_llm_api openaiImpl anthropicImpl prompt model extra
        = "Error: Unsupported model " ++ apos ++ model ++ apos := by
      simp [call_llm_api, h1, h2]
    refine ⟨heq, ?_, ?_⟩
    · refine ⟨"Error: ", " " ++ (apos ++ (model ++ apos)), ?_⟩
      rw [heq]
      have key : ∀ x : String,
          "Error: Unsupported model " ++ x
            = "Error: " ++ ("Unsupported model" ++ (" " ++ x)) := by
        intro x
        rw [← String.append_assoc, ← String.append_assoc]
        rfl
      simp only [String.append_assoc]
      exact key _
    · intro f g
      simp [call_llm_api, h1, h2]

/-- Witness for `call_llm_api_routing`: concrete mocks, one model identifier
per routing class. -/
theorem call_llm_api_routing_witness :
    @call_llm_api Unit (fun _ _ _ => .ok "openai says hi")
        (fun _ _ _ => .ok "claude says hi") "p" "mistral-7b" ()
      = "Error: Unsupported model " ++ apos ++ "mistral-7b" ++ apos ∧
    @call_llm_api Unit (fun _ _ _ => .ok "openai says hi")
        (fun _ _ _ => .ok "claude says hi") "p" "gpt-4o" () = "openai says hi" ∧
    @call_llm_api Unit (fun _ _ _ => .ok "openai says hi")
        (fun _ _ _ => .ok "claude says hi") "p" "claude-3-opus" () = "claude says hi" :=
  ⟨((call_llm_api_routing _ _ "p" "mistral-7b" ()).2.2 (by decide) (by decide)).1,
   (call_llm_api_routing _ _ "p" "gpt-4o" ()).1 (by decide) _ rfl,
   (call_llm_api_routing _ _ "p" "claude-3-opus" ()).2.1 (by decide) _ rfl⟩

/-- C2: `call_llm_api` converts an exception of the chosen provider helper
(an `.error` oracle outcome) into the text
`"Error calling LLM API: <message>"` — which contains `"Error"` — instead
of propagating it.  (That no exception ever reaches the caller is expressed
by the embedding itself: `call_llm_api` is a total function into `String`.) -/
theorem call_llm_api_catches {Extra : Type}
    (openaiImpl anthropicImpl : String → String → Extra → Except String String)
    (prompt model : String) (extra : Extra) :
    (pyStartsWith model "gpt" = true →
      ∀ msg, openaiImpl prompt model extra = .error msg →
        call_llm_api openaiImpl anthropicImpl prompt model extra
            = "Error calling LLM API: " ++ msg ∧
        ContainsSub (call_llm_api openaiImpl anthropicImpl prompt model extra) "Error") ∧
    (pyStartsWith model "claude" = true →
      ∀ msg, anthropicImpl prompt model extra = .error msg →
        call_llm_api openaiImpl anthropicImpl prompt model extra
            = "Error calling LLM API: " ++ msg ∧
        ContainsSub (call_llm_api openaiImpl anthropicImpl prompt model extra) "Error") := by
  have key : ∀ x : String,
      "Error calling LLM API: " ++ x = "" ++ ("Error" ++ (" calling LLM API: " ++ x)) := by
    intro x
    rw [← String.append_assoc, ← String.append_assoc]
    rfl
  constructor
  · intro h msg hmsg
    have heq : call_llm_api openaiImpl anthropicImpl prompt model extra
        = "Error calling LLM API: " ++ msg := by
      simp [call_llm_api, h, hmsg]
    exact ⟨heq, "", " calling LLM API: " ++ msg, by rw [heq]; exact key msg⟩
  · intro h msg hmsg
    have hg : pyStartsWith model "gpt" = false := by
      cases hgp : pyStartsWith model "gpt" with
      | false => rfl
      | true => exact absurd (not_gpt_and_claude model hgp h) (by simp)
    have heq : call_llm_api openaiImpl anthropicImpl prompt model extra
        = "Error calling LLM API: " ++ msg := by
      simp [call_llm_api, h, hg, hmsg]
    exact ⟨heq, "", " calling LLM API: " ++ msg, by rw [heq]; exact key msg⟩

/-- Witness for `call_llm_api_catches`: both provider mocks raise. -/
theorem call_llm_api_catches_witness :
    @call_llm_api Unit (fun _ _ _ => .error "boom")
        (fun _ _ _ => .ok "fine") "p" "gpt-4" ()
      = "Error calling LLM API: " ++ "boom" ∧
    @call_llm_api Unit (fun _ _ _ => .ok "fine")
        (fun _ _ _ => .error "kaput") "p" "claude-3" ()
      = "Error calling LLM API: " ++ "kaput" :=
  ⟨((call_llm_api_catches _ _ "p" "gpt-4" ()).1 (by decide) "boom" rfl).1,
   ((call_llm_api_catches _ _ "p" "claude-3" ()).2 (by decide) "kaput" rfl).1⟩

/-! ### Theorems about the provider helpers -/

/-- C5: with an empty resolved credential, both provider helpers return
their key-not-found error text at once; the result does not depend on the
client constructor or request oracles, i.e. no client is constructed and
no network call is attempted. -/
theorem provider_calls_key_short_circuit {Extra Client Resp : Type}
    (wo : OpenAIWorld Extra Client) (wa : AnthropicWorld Extra Client Resp)
    (prompt model : String) (extra : Extra) :
    (get_api_key wo.env "openai" = "" →
      _call_openai wo prompt model extra
          = .ok "Error: OpenAI API key not found. Please set it in .streamlit/secrets.toml or .env file." ∧
      ∀ (nc : String → Except String Client)
        (cm : Client → String → String → Extra → Except String OpenAIResponse),
        _call_openai { wo with newClient := nc, complete := cm } prompt model extra
          = _call_openai wo prompt model extra) ∧
    (get_api_key wa.env "anthropic" = "" →
      _call_anthropic wa prompt model extra
          = .ok "Error: Anthropic API key not found. Please add it to your .streamlit/secrets.toml file." ∧
      ∀ (nc : String → Except String Client)
        (cr : Client → String → String → Extra → Except String Resp)
        (ct : Resp → Except String String),
        _call_anthropic { wa with newClient := nc, create := cr, contentText := ct } prompt model extra
          = _call_anthropic wa prompt model extra) := by
  constructor
  · intro h
    constructor
    · simp [_call_openai, h]
    · intro nc cm
      simp [_call_openai, h]
  · intro h
    constructor
    · simp [_call_anthropic, h]
    · intro nc cr ct
      simp [_call_anthropic, h]

/-- A sample credential environment whose process environment holds both
API keys (used by witnesses). -/
def sampleKeyEnv : KeyEnv where
  env := fun n =>
    if n == "OPENAI_API_KEY" then some "sk-test"
    else if n == "ANTHROPIC_API_KEY" then some "ak-test" else none
  env2 := fun _ => none
  loadFail := false
  secretsFail := false
  secretsDefault := fun _ => none
  secretsTop := fun _ => none

/-- A credential environment in which every source is empty (used by
witnesses). -/
def emptyKeyEnv : KeyEnv where
  env := fun _ => none
  env2 := fun _ => none
  loadFail := false
  secretsFail := false
  secretsDefault := fun _ => none
  secretsTop := fun _ => none

/-- Witness for `provider_calls_key_short_circuit`: concrete worlds whose
credential sources are all empty. -/
theorem provider_calls_key_short_circuit_witness :
    @_call_openai Unit Unit
        { env := emptyKeyEnv, newClient := fun _ => .ok ()
          complete := fun _ _ _ _ => .ok { choices := [] } } "p" "gpt-4" ()
      = .ok "Error: OpenAI API key not found. Please set it in .streamlit/secrets.toml or .env file." ∧
    @_call_anthropic Unit Unit Unit
        { env := emptyKeyEnv, newClient := fun _ => .ok ()
          create := fun _ _ _ _ => .ok (), contentText := fun _ => .ok "t" } "p" "claude-3" ()
      = .ok "Error: Anthropic API key not found. Please add it to your .streamlit/secrets.toml file." :=
  ⟨((provider_calls_key_short_circuit
      { env := emptyKeyEnv, newClient := fun _ => .ok ()
        complete := fun _ _ _ _ => .ok { choices := [] } }
      { env := emptyKeyEnv, newClient := fun _ => .ok ()
        create := fun _ _ _ _ => .ok (), contentText := fun _ => .ok "t" }
      "p" "gpt-4" ()).1 (by decide)).1,
   ((provider_calls_key_short_circuit
      { env := emptyKeyEnv, newClient := fun _ => .ok ()
        complete := fun _ _ _ _ => .ok { choices := [] } }
      { env := emptyKeyEnv, newClient := fun _ => .ok ()
        create := fun _ _ _ _ => .ok (), contentText := fun _ => .ok "t" }
      "p" "claude-3" ()).2 (by decide)).1⟩

/-- C6: when the OpenAI-shaped request itself succeeds, `_call_openai`
returns the first choice's text stripped of surrounding whitespace, or the
fixed `"Error: No response content from the model."` text when there is no
choice or the first choice's content is `None`/empty. -/
theorem openai_response_extraction {Extra Client : Type}
    (w : OpenAIWorld Extra Client) (prompt model : String) (extra : Extra)
    (client : Client) (response : OpenAIResponse)
    (hkey : get_api_key w.env "openai" ≠ "")
    (hclient : w.newClient (get_api_key w.env "openai") = .ok client)
    (hreq : w.complete client prompt model extra = .ok response) :
    (response.choices = [] →
      _call_openai w prompt model extra
        = .ok "Error: No response content from the model.") ∧
    (∀ choice rest, response.choices = choice :: rest →
      (choice.message.content = none ∨ choice.message.content = some "") →
      _call_openai w prompt model extra
        = .ok "Error: No response content from the model.") ∧
    (∀ choice rest text, response.choices = choice :: rest →
      choice.message.content = some text → text ≠ "" →
      _call_openai w prompt model extra = .ok (pyStrip text)) := by
  have hkb : (get_api_key w.env "openai" == "") = false := by
    simp [hkey]
  refine ⟨?_, ?_, ?_⟩
  · intro hchoices
    simp [_call_openai, hkb, hclient, hreq, hchoices]
  · intro choice rest hchoices hcontent
    rcases hcontent with hc | hc <;>
      simp [_call_openai, hkb, hclient, hreq, hchoices, hc]
  · intro choice rest text hchoices hcontent htext
    simp [_call_openai, hkb, hclient, hreq, hchoices, hcontent, htext]

/-- Witness for `openai_response_extraction`: a concrete world whose
request yields one choice containing `"  result  "`. -/
theorem openai_response_extraction_witness :
    @_call_openai Unit Unit
        { env := sampleKeyEnv, newClient := fun _ => .ok ()
          complete := fun _ _ _ _ =>
            .ok { choices := [{ message := { content := some "  result  " } }] } }
        "p" "gpt-4" ()
      = .ok (pyStrip "  result  ") :=
  (openai_response_extraction
      { env := sampleKeyEnv, newClient := fun _ => .ok ()
        complete := fun _ _ _ _ =>
          .ok { choices := [{ message := { content := some "  result  " } }] } }
      "p" "gpt-4" () ()
      { choices := [{ message := { content := some "  result  " } }] }
      (by decide) rfl rfl).2.2
    { message := { content := some "  result  " } } [] "  result  " rfl rfl (by decide)

/-- A credential environment whose process environment holds only the
Anthropic key. -/
def anthOnlyKeyEnv : KeyEnv where
  env := fun n => if n == "ANTHROPIC_API_KEY" then some "ak-test" else none
  env2 := fun _ => none
  loadFail := false
  secretsFail := false
  secretsDefault := fun _ => none
  secretsTop := fun _ => none

/-- The Anthropic world of the shipped program: since `src/utils/llm.py`
never imports `anthropic`, evaluating `anthropic.Anthropic(api_key=...)`
raises `NameError` — the constructor oracle always fails. -/
def shippedAnthropicWorld : AnthropicWorld Unit Unit Unit where
  env := anthOnlyKeyEnv
  newClient := fun _ => .error "NameError: name anthropic is not defined"
  create := fun _ _ _ _ => .ok ()
  contentText := fun _ => .ok "response text"

/-- Counterexample to C3: with a non-empty resolved credential, an
exception raised while constructing the client escapes `_call_anthropic`
(the construction happens before the `try` block), so the function does
NOT return an error-text string for every exception arising after
credential resolution. -/
theorem anthropic_ctor_exception_escapes :
    get_api_key anthOnlyKeyEnv "anthropic" = "ak-test" ∧
    _call_anthropic shippedAnthropicWorld "p" "claude-3-opus" ()
        = .error "NameError: name anthropic is not defined" ∧
    ¬ ∃ s, _call_anthropic shippedAnthropicWorld "p" "claude-3-opus" () = .ok s := by
  have h2 : _call_anthropic shippedAnthropicWorld "p" "claude-3-opus" ()
      = .error "NameError: name anthropic is not defined" := rfl
  refine ⟨by decide, h2, ?_⟩
  rintro ⟨s, hs⟩
  rw [h2] at hs
  exact Except.noConfusion hs

/-- C3 amended: after credential resolution, `_call_anthropic` catches
every exception raised inside its `try` block and converts it to the exact
text `"Anthropic API error: <message>"` — whether it comes from the
`messages.create` request or from the `response.content[0].text` access —
and returns the first content block's text when both succeed; but an
exception raised while constructing the client (which sits before the
`try`) propagates to the caller unchanged. -/
theorem anthropic_exception_handling {Extra Client Resp : Type}
    (w : AnthropicWorld Extra Client Resp) (prompt model : String) (extra : Extra)
    (hkey : get_api_key w.env "anthropic" ≠ "") :
    (∀ client e, w.newClient (get_api_key w.env "anthropic") = .ok client →
      w.create client prompt model extra = .error e →
      _call_anthropic w prompt model extra = .ok ("Anthropic API error: " ++ e)) ∧
    (∀ client response e, w.newClient (get_api_key w.env "anthropic") = .ok client →
      w.create client prompt model extra = .ok response →
      w.contentText response = .error e →
      _call_anthropic w prompt model extra = .ok ("Anthropic API error: " ++ e)) ∧
    (∀ client response text, w.newClient (get_api_key w.env "anthropic") = .ok client →
      w.create client prompt model extra = .ok response →
      w.contentText response = .ok text →
      _call_anthropic w prompt model extra = .ok text) ∧
    (∀ e, w.newClient (get_api_key w.env "anthropic") = .error e →
      _call_anthropic w prompt model extra = .error e) := by
  have hkb : (get_api_key w.env "anthropic" == "") = false := by
    simp [hkey]
  refine ⟨?_, ?_, ?_, ?_⟩
  · intro client e hc hcr
    simp [_call_anthropic, hkb, hc, hcr]
  · intro client response e hc hcr hct
    simp [_call_anthropic, hkb, hc, hcr, hct]
  · intro client response text hc hcr hct
    simp [_call_anthropic, hkb, hc, hcr, hct]
  · intro e hc
    simp [_call_anthropic, hkb, hc]

/-- Witness for `anthropic_exception_handling`: a concrete world whose
constructor succeeds and whose request raises — yielding the exact
`"Anthropic API error: ..."` text — and one whose constructor raises. -/
theorem anthropic_exception_handling_witness :
    @_call_anthropic Unit Unit Unit
        { env := anthOnlyKeyEnv, newClient := fun _ => .ok ()
          create := fun _ _ _ _ => .error "request timed out"
          contentText := fun _ => .ok "t" } "p" "claude-3" ()
      = .ok ("Anthropic API error: " ++ "request timed out") ∧
    _call_anthropic shippedAnthropicWorld "p" "claude-3" ()
      = .error "NameError: name anthropic is not defined" :=
  ⟨(anthropic_exception_handling
      { env := anthOnlyKeyEnv, newClient := fun _ => .ok ()
        create := fun _ _ _ _ => .error "request timed out"
        contentText := fun _ => .ok "t" } "p" "claude-3" () (by decide)).1
      () "request timed out" rfl rfl,
   (anthropic_exception_handling shippedAnthropicWorld "p" "claude-3" ()
      (by decide)).2.2.2 "NameError: name anthropic is not defined" rfl⟩

/-! ### Theorems about credential resolution -/

theorem firstTruthy_cons_true {o : Option String} {l : List (Option String)}
    (h : pyTruthy o = true) : firstTruthy (o :: l) = o := by
  simp [firstTruthy, h]

theorem firstTruthy_cons_false {o : Option String} {l : List (Option String)}
    (h : pyTruthy o = false) : firstTruthy (o :: l) = firstTruthy l := by
  simp [firstTruthy, h]

theorem elim_stripQuotes_getD {o : Option String} (h : pyTruthy o = true) :
    Option.elim o "" stripQuotes = stripQuotes (o.getD "") := by
  cases o with
  | none => simp [pyTruthy] at h
  | some v => simp

theorem chain_firstTruthy (a b c d : Option String) :
    (if pyTruthy a then stripQuotes (a.getD "")
     else if pyTruthy b then stripQuotes (b.getD "")
     else if pyTruthy (pyOr c d) then stripQuotes ((pyOr c d).getD "")
     else "")
      = Option.elim (firstTruthy [a, b, c, d]) "" stripQuotes := by
  cases h1 : pyTruthy a with
  | true =>
    rw [firstTruthy_cons_true h1, elim_stripQuotes_getD h1]
    simp [h1]
  | false =>
    rw [firstTruthy_cons_false h1]
    simp only [h1, Bool.false_eq_true, if_false]
    cases h2 : pyTruthy b with
    | true =>
      rw [firstTruthy_cons_true h2, elim_stripQuotes_getD h2]
      simp [h2]
    | false =>
      rw [firstTruthy_cons_false h2]
      simp only [h2, Bool.false_eq_true, if_false]
      cases h3 : pyTruthy c with
      | true =>
        rw [firstTruthy_cons_true h3]
        have hOr : pyOr c d = c := by simp [pyOr, h3]
        rw [hOr, elim_stripQuotes_getD h3]
        simp [h3]
      | false =>
        rw [firstTruthy_cons_false h3]
        have hOr : pyOr c d = d := by simp [pyOr, h3]
        rw [hOr]
        cases h4 : pyTruthy d with
        | true =>
          rw [firstTruthy_cons_true h4, elim_stripQuotes_getD h4]
          simp [h4]
        | false =>
          simp [firstTruthy, h4]

/-- C4: `get_api_key` resolves a recognized provider to the first truthy
value among the four sources in their documented order — process
environment, environment after the `.env` load, secrets `default` section,
secrets top level — with wrapping quote characters stripped; an
unrecognized provider yields `""` immediately, and exhausting all sources
yields `""` (the `.elim` of `none`).  Totality — "never raises" — holds by
construction: the embedding is a plain function into `String`, mirroring
the function-wide `except` handler of the source. -/
theorem get_api_key_lookup_order (e : KeyEnv) (provider : String)
    (hload : e.loadFail = false) (hsecrets : e.secretsFail = false) :
    (pyLower provider ≠ "openai" ∧ pyLower provider ≠ "anthropic" →
      get_api_key e provider = "") ∧
    (∀ varName,
      (pyLower provider = "openai" ∧ varName = "OPENAI_API_KEY") ∨
        (pyLower provider = "anthropic" ∧ varName = "ANTHROPIC_API_KEY") →
      get_api_key e provider
        = Option.elim
            (firstTruthy [e.env varName, e.env2 varName,
              e.secretsDefault varName, e.secretsTop varName]) "" stripQuotes) := by
  constructor
  · rintro ⟨h1, h2⟩
    have hc : (pyLower provider == "openai" || pyLower provider == "anthropic") = false := by
      simp [h1, h2]
    simp [get_api_key, hc]
  · rintro varName (⟨hp, hv⟩ | ⟨hp, hv⟩) <;> subst hv <;>
      simp only [get_api_key, hp] <;>
      simp only [show (("openai" : String) == "openai") = true from by decide,
        show (("openai" : String) == "anthropic") = false from by decide,
        show (("anthropic" : String) == "openai") = false from by decide,
        show (("anthropic" : String) == "anthropic") = true from by decide,
        Bool.true_or, Bool.false_or, if_true, hload, hsecrets, Bool.false_eq_true,
        if_false] <;>
    exact chain_firstTruthy _ _ _ _

/-- A credential environment populated only in the secrets `default`
section, with a quote-wrapped value. -/
def secretsOnlyKeyEnv : KeyEnv where
  env := fun _ => none
  env2 := fun _ => none
  loadFail := false
  secretsFail := false
  secretsDefault := fun n => if n == "OPENAI_API_KEY" then some "\"sk-from-secrets\"" else none
  secretsTop := fun _ => none

/-- Witness for `get_api_key_lookup_order`: only the secrets `default`
section is populated (with a quote-wrapped value), and an unrecognized
provider name yields `""`. -/
theorem get_api_key_lookup_order_witness :
    get_api_key secretsOnlyKeyEnv "openai"
        = Option.elim
            (firstTruthy [secretsOnlyKeyEnv.env "OPENAI_API_KEY",
              secretsOnlyKeyEnv.env2 "OPENAI_API_KEY",
              secretsOnlyKeyEnv.secretsDefault "OPENAI_API_KEY",
              secretsOnlyKeyEnv.secretsTop "OPENAI_API_KEY"]) "" stripQuotes ∧
    get_api_key secretsOnlyKeyEnv "gemini-pro" = "" ∧
    get_api_key secretsOnlyKeyEnv "openai" = "sk-from-secrets" :=
  ⟨(get_api_key_lookup_order secretsOnlyKeyEnv "openai" rfl rfl).2
      "OPENAI_API_KEY" (Or.inl ⟨by decide, rfl⟩),
   (get_api_key_lookup_order secretsOnlyKeyEnv "gemini-pro" rfl rfl).1
      ⟨by decide, by decide⟩,
   by decide⟩

/-! ### src/utils/prompt.py — a model of Python `str.format`

The templates of this program use only plain named replacement fields
(`\x7bcontent\x7d`, `\x7binstructions\x7d`, `\x7bcustom_query\x7d`), so
`str.format` is modeled for plain named fields (no conversion or format
specs, no positional fields): a literal `\x7b\x7b` / `\x7d\x7d` produces a
single brace, `\x7bname\x7d` substitutes the value bound to `name` (a
missing binding models Python's `KeyError`), and a stray single brace
models Python's `ValueError`.  The scanner is a three-state machine over
the character list; `.error` carries the modeled exception. -/

/-- Scanner state: in literal text, collecting a field name (characters in
reverse), or just after a lone closing brace. -/
inductive FmtState where
  | lit : FmtState
  | field : List Char → FmtState
  | close : FmtState

/-- One-pass interpreter of a format string over a binding map. -/
def pyFormatAux (vars : String → Option String) : FmtState → List Char → Except String (List Char)
  | .lit, [] => .ok []
  | .lit, c :: rest =>
    if c = '{' then pyFormatAux vars (.field []) rest
    else if c = '}' then pyFormatAux vars .close rest
    else (pyFormatAux vars .lit rest).map (fun l => c :: l)
  | .field _, [] => .error "ValueError: expected closing brace before end of string"
  | .field acc, c :: rest =>
    if c = '{' then
      if acc = [] then (pyFormatAux vars .lit rest).map (fun l => '{' :: l)
      else pyFormatAux vars (.field (c :: acc)) rest
    else if c = '}' then
      match vars (String.mk acc.reverse) with
      | none => .error ("KeyError: " ++ String.mk acc.reverse)
      | some v => (pyFormatAux vars .lit rest).map (fun l => v.data ++ l)
    else pyFormatAux vars (.field (c :: acc)) rest
  | .close, [] => .error "ValueError: single closing brace in format string"
  | .close, c :: rest =>
    if c = '}' then (pyFormatAux vars .lit rest).map (fun l => '}' :: l)
    else .error "ValueError: single closing brace in format string"

/-- `template.format(**vars)`. -/
def pyFormat (s : String) (vars : String → Option String) : Except String String :=
  (pyFormatAux vars .lit s.data).map String.mk

/-- The field names a format string references, collected by the same scan
as `pyFormatAux`. -/
def tmplRefsAux : FmtState → List Char → List String
  | .lit, [] => []
  | .lit, c :: rest =>
    if c = '{' then tmplRefsAux (.field []) rest
    else if c = '}' then tmplRefsAux .close rest
    else tmplRefsAux .lit rest
  | .field _, [] => []
  | .field acc, c :: rest =>
    if c = '{' then
      if acc = [] then tmplRefsAux .lit rest
      else tmplRefsAux (.field (c :: acc)) rest
    else if c = '}' then String.mk acc.reverse :: tmplRefsAux .lit rest
    else tmplRefsAux (.field (c :: acc)) rest
  | .close, [] => []
  | .close, c :: rest =>
    if c = '}' then tmplRefsAux .lit rest
    else []

/-- The field names referenced by a template. -/
def templateRefs (s : String) : List String := tmplRefsAux .lit s.data

/-- `c` is neither brace. -/
def noBraceChar (c : Char) : Bool := !(c == '{') && !(c == '}')

/-- No character of `l` is a brace. -/
def noBraces (l : List Char) : Bool := l.all noBraceChar

/-- `pyFormatAux` only consults the bindings of referenced names. -/
theorem pyFormatAux_congr (vars1 vars2 : String → Option String) :
    ∀ (l : List Char) (st : FmtState),
      (∀ n, n ∈ tmplRefsAux st l → vars1 n = vars2 n) →
      pyFormatAux vars1 st l = pyFormatAux vars2 st l := by
  intro l
  induction l with
  | nil => intro st _; cases st <;> rfl
  | cons c rest ih =>
    intro st h
    cases st with
    | lit =>
      simp only [pyFormatAux, tmplRefsAux] at h ⊢
      by_cases hc1 : c = '{'
      · simp only [if_pos hc1] at h ⊢
        exact ih _ h
      · simp only [if_neg hc1] at h ⊢
        by_cases hc2 : c = '}'
        · simp only [if_pos hc2] at h ⊢
          exact ih _ h
        · simp only [if_neg hc2] at h ⊢
          rw [ih _ h]
    | field acc =>
      simp only [pyFormatAux, tmplRefsAux] at h ⊢
      by_cases hc1 : c = '{'
      · simp only [if_pos hc1] at h ⊢
        by_cases hacc : acc = []
        · simp only [if_pos hacc] at h ⊢
          rw [ih _ h]
        · simp only [if_neg hacc] at h ⊢
          exact ih _ h
      · simp only [if_neg hc1] at h ⊢
        by_cases hc2 : c = '}'
        · simp only [if_pos hc2] at h ⊢
          have hv := h _ (List.mem_cons_self _ _)
          rw [hv]
          cases hv2 : vars2 (String.mk acc.reverse) with
          | none => rfl
          | some v =>
            rw [ih _ (fun n hn => h n (List.mem_cons_of_mem _ hn))]
        · simp only [if_neg hc2] at h ⊢
          exact ih _ h
    | close =>
      simp only [pyFormatAux, tmplRefsAux] at h ⊢
      by_cases hc : c = '}'
      · simp only [if_pos hc] at h ⊢
        rw [ih _ h]
      · simp only [if_neg hc]

theorem noBraces_cons {c : Char} {l : List Char} (h : noBraces (c :: l) = true) :
    (c ≠ '{' ∧ c ≠ '}') ∧ noBraces l = true := by
  simp only [noBraces, List.all_cons, Bool.and_eq_true, noBraceChar] at h
  rcases h with ⟨⟨h1, h2⟩, h3⟩
  refine ⟨⟨?_, ?_⟩, h3⟩
  · intro hc; rw [hc] at h1; simp at h1
  · intro hc; rw [hc] at h2; simp at h2

theorem pyFormatAux_lit_append (vars : String → Option String) (lit rest : List Char)
    (hb : noBraces lit = true) :
    pyFormatAux vars .lit (lit ++ rest)
      = (pyFormatAux vars .lit rest).map (fun l => lit ++ l) := by
  induction lit with
  | nil =>
    cases h : pyFormatAux vars .lit rest <;> simp [Except.map, h]
  | cons c cs ih =>
    obtain ⟨⟨hc1, hc2⟩, hcs⟩ := noBraces_cons hb
    rw [List.cons_append]
    simp only [pyFormatAux, if_neg hc1, if_neg hc2, ih hcs]
    cases h : pyFormatAux vars .lit rest <;> simp [Except.map, h]

theorem pyFormatAux_lit_all (vars : String → Option String) (l : List Char)
    (hb : noBraces l = true) :
    pyFormatAux vars .lit l = .ok l := by
  have h := pyFormatAux_lit_append vars l [] hb
  rw [List.append_nil] at h
  rw [h]
  simp [pyFormatAux, Except.map]

theorem pyFormatAux_field_scan (vars : String → Option String) (n : List Char)
    (hb : noBraces n = true) :
    ∀ (acc r : List Char),
      pyFormatAux vars (.field acc) (n ++ '}' :: r)
        = match vars (String.mk (acc.reverse ++ n)) with
          | none => .error ("KeyError: " ++ String.mk (acc.reverse ++ n))
          | some v => (pyFormatAux vars .lit r).map (fun l => v.data ++ l) := by
  induction n with
  | nil =>
    intro acc r
    simp only [List.nil_append, pyFormatAux,
      if_neg (show ('}' : Char) ≠ '{' from by decide), if_pos rfl, if_true,
      List.append_nil]
  | cons c cs ih =>
    intro acc r
    obtain ⟨⟨hc1, hc2⟩, hcs⟩ := noBraces_cons hb
    rw [List.cons_append]
    simp only [pyFormatAux, if_neg hc1, if_neg hc2, ih hcs]
    have hrw : (c :: acc).reverse ++ cs = acc.reverse ++ (c :: cs) := by
      simp
    rw [hrw]

theorem pyFormatAux_var (vars : String → Option String) (n r : List Char)
    (hb : noBraces n = true) :
    pyFormatAux vars .lit ('{' :: (n ++ '}' :: r))
      = match vars (String.mk n) with
        | none => .error ("KeyError: " ++ String.mk n)
        | some v => (pyFormatAux vars .lit r).map (fun l => v.data ++ l) := by
  simp only [pyFormatAux, if_pos rfl]
  have h := pyFormatAux_field_scan vars n hb [] r
  simp only [List.reverse_nil, List.nil_append] at h
  exact h

/-- `String.mk` of concatenated data is string concatenation. -/
theorem mk_data_append (a b : String) : String.mk (a.data ++ b.data) = a ++ b := rfl

theorem data_instructions_field :
    ("\x7binstructions\x7d" : String).data = '{' :: ("instructions".data ++ ['}']) := rfl

theorem data_content_field :
    ("\x7bcontent\x7d" : String).data = '{' :: ("content".data ++ ['}']) := rfl

theorem data_custom_query_field :
    ("\x7bcustom_query\x7d" : String).data = '{' :: ("custom_query".data ++ ['}']) := rfl

/-- Closed form of `str.format` on a template of shape
`seg1 ++ "\x7binstructions\x7d" ++ seg2 ++ "\x7bcontent\x7d" ++ seg3`
(the shape of four of the five stored templates). -/
theorem pyFormat_instr_content (seg1 seg2 seg3 : String)
    (h1 : noBraces seg1.data = true) (h2 : noBraces seg2.data = true)
    (h3 : noBraces seg3.data = true)
    (vars : String → Option String) (i c : String)
    (hi : vars "instructions" = some i) (hc : vars "content" = some c) :
    pyFormat (seg1 ++ "\x7binstructions\x7d" ++ seg2 ++ "\x7bcontent\x7d" ++ seg3) vars
      = .ok (seg1 ++ (i ++ (seg2 ++ (c ++ seg3)))) := by
  have hdata :
      (seg1 ++ "\x7binstructions\x7d" ++ seg2 ++ "\x7bcontent\x7d" ++ seg3).data
        = seg1.data ++ ('{' :: ("instructions".data
            ++ ('}' :: (seg2.data ++ ('{' :: ("content".data
            ++ ('}' :: seg3.data))))))) := by
    simp only [String.data_append, data_instructions_field, data_content_field,
      List.append_assoc, List.cons_append, List.singleton_append, List.nil_append]
  rw [pyFormat, hdata]
  rw [pyFormatAux_lit_append vars seg1.data _ h1]
  rw [pyFormatAux_var vars "instructions".data _ (by decide)]
  rw [show String.mk ("instructions".data) = "instructions" from rfl, hi]
  rw [pyFormatAux_lit_append vars seg2.data _ h2]
  rw [pyFormatAux_var vars "content".data seg3.data (by decide)]
  rw [show String.mk ("content".data) = "content" from rfl, hc]
  rw [pyFormatAux_lit_all vars seg3.data h3]
  rfl

/-- Closed form of `str.format` on the `"Custom Query"` template shape
`seg1 ++ "\x7binstructions\x7d" ++ seg2 ++ "\x7bcustom_query\x7d" ++ seg3 ++
"\x7bcontent\x7d" ++ seg4`. -/
theorem pyFormat_instr_query_content (seg1 seg2 seg3 seg4 : String)
    (h1 : noBraces seg1.data = true) (h2 : noBraces seg2.data = true)
    (h3 : noBraces seg3.data = true) (h4 : noBraces seg4.data = true)
    (vars : String → Option String) (i q c : String)
    (hi : vars "instructions" = some i) (hq : vars "custom_query" = some q)
    (hc : vars "content" = some c) :
    pyFormat (seg1 ++ "\x7binstructions\x7d" ++ seg2 ++ "\x7bcustom_query\x7d"
        ++ seg3 ++ "\x7bcontent\x7d" ++ seg4) vars
      = .ok (seg1 ++ (i ++ (seg2 ++ (q ++ (seg3 ++ (c ++ seg4)))))) := by
  have hdata :
      (seg1 ++ "\x7binstructions\x7d" ++ seg2 ++ "\x7bcustom_query\x7d"
          ++ seg3 ++ "\x7bcontent\x7d" ++ seg4).data
        = seg1.data ++ ('{' :: ("instructions".data
            ++ ('}' :: (seg2.data ++ ('{' :: ("custom_query".data
            ++ ('}' :: (seg3.data ++ ('{' :: ("content".data
            ++ ('}' :: seg4.data))))))))))) := by
    simp only [String.data_append, data_instructions_field, data_custom_query_field,
      data_content_field, List.append_assoc, List.cons_append, List.singleton_append, List.nil_append]
  rw [pyFormat, hdata]
  rw [pyFormatAux_lit_append vars seg1.data _ h1]
  rw [pyFormatAux_var vars "instructions".data _ (by decide)]
  rw [show String.mk ("instructions".data) = "instructions" from rfl, hi]
  rw [pyFormatAux_lit_append vars seg2.data _ h2]
  rw [pyFormatAux_var vars "custom_query".data _ (by decide)]
  rw [show String.mk ("custom_query".data) = "custom_query" from rfl, hq]
  rw [pyFormatAux_lit_append vars seg3.data _ h3]
  rw [pyFormatAux_var vars "content".data seg4.data (by decide)]
  rw [show String.mk ("content".data) = "content" from rfl, hc]
  rw [pyFormatAux_lit_all vars seg4.data h4]
  rfl

/-- Closed form of `str.format` on the one-field fallback template shape
`seg1 ++ "\x7bcontent\x7d"`. -/
theorem pyFormat_content_only (seg1 : String) (h1 : noBraces seg1.data = true)
    (vars : String → Option String) (c : String) (hc : vars "content" = some c) :
    pyFormat (seg1 ++ "\x7bcontent\x7d") vars = .ok (seg1 ++ c) := by
  have hdata : (seg1 ++ "\x7bcontent\x7d").data
      = seg1.data ++ ('{' :: ("content".data ++ ('}' :: []))) := by
    simp only [String.data_append, data_content_field, List.append_assoc,
      List.cons_append, List.singleton_append, List.nil_append]
  rw [pyFormat, hdata]
  rw [pyFormatAux_lit_append vars seg1.data _ h1]
  rw [pyFormatAux_var vars "content".data [] (by decide)]
  rw [show String.mk ("content".data) = "content" from rfl, hc]
  have hnil : pyFormatAux vars .lit [] = .ok [] := rfl
  rw [hnil]
  simp only [Except.map, List.append_nil]
  rfl

/-- `str.format` fails with the modeled `KeyError` as soon as it reaches a
field whose name is unbound; all five stored templates start with a literal
segment followed by `\x7binstructions\x7d`. -/
theorem pyFormat_missing_instructions (seg1 rest : String)
    (h1 : noBraces seg1.data = true)
    (vars : String → Option String) (hi : vars "instructions" = none) :
    pyFormat (seg1 ++ "\x7binstructions\x7d" ++ rest) vars
      = .error "KeyError: instructions" := by
  have hdata : (seg1 ++ "\x7binstructions\x7d" ++ rest).data
      = seg1.data ++ ('{' :: ("instructions".data ++ ('}' :: rest.data))) := by
    simp only [String.data_append, data_instructions_field, List.append_assoc,
      List.cons_append, List.singleton_append, List.nil_append]
  rw [pyFormat, hdata]
  rw [pyFormatAux_lit_append vars seg1.data _ h1]
  rw [pyFormatAux_var vars "instructions".data rest.data (by decide)]
  rw [show String.mk ("instructions".data) = "instructions" from rfl, hi]
  rfl

/-! ### src/utils/prompt.py — the template store

Each template below is the exact Python string literal of
`PROMPT_TEMPLATES`, written as the concatenation of its literal segments
and its replacement fields in source order (the concatenation is
character-for-character the Python literal). -/

def tmplAvaliacaoSeg1 : String :=
  "\n       \n       "

def tmplAvaliacaoSeg2 : String :=
  "\n\n       Você é um especialista em direito imobiliário brasileiro e legislação vigente. \n       Realize uma análise detalhada do seguinte contrato de compra e venda de imóvel, considerando as boas práticas do direito imobiliário brasileiro e a legislação vigente.\n       O resultado da sua avaliação será utilizado para esclarecer dúvidas e fornecer recomendações práticas para compradores e vendedores no contrato. Seja didático.\n\n       As boas práticas em contratos de compra e venda de imóveis e os itens essenciais do direito imobiliário e contratual que devem ser respeitados incluem os seguintes pontos fundamentais:\n\n       1. Identificação completa das partes\n       O contrato deve conter os dados pessoais completos do comprador e do vendedor, como nome, CPF, RG, estado civil, endereço e, se possível, contatos atualizados. Essa qualificação é essencial para evitar dúvidas futuras e garantir segurança jurídica.\n       2. Descrição detalhada do imóvel\n       É imprescindível descrever com precisão o imóvel objeto da venda, incluindo endereço, número da matrícula no Cartório de Registro de Imóveis, área construída, área total do terreno, características específicas e limites. A descrição deve estar alinhada com a matrícula para evitar conflitos.\n       3. Preço e condições de pagamento\n       O contrato deve estipular claramente o valor total da negociação, detalhar se haverá entrada, o número de parcelas, datas de vencimento, forma de pagamento (à vista, financiamento, etc.) e incluir taxas e juros, se houver. Também é importante prever cláusulas que tratem do inadimplemento, como multas e juros de mora.\n       4. Prazos e condições para entrega do imóvel\n       Definir a data e as condições para a entrega das chaves e posse do imóvel é fundamental para evitar conflitos posteriores entre as partes.\n       5. Cláusulas de rescisão e penalidades\n       O contrato deve prever o que acontece em caso de cancelamento, inadimplência ou descumprimento de qualquer cláusula, estabelecendo penalidades claras para garantir o cumprimento do acordo.\n       6. Garantias e responsabilidades\n       É necessário estipular as garantias oferecidas pelo vendedor, como a inexistência de ônus, dívidas ou ações judiciais sobre o imóvel, e as responsabilidades das partes quanto a possíveis vícios ou defeitos do imóvel.\n       7. Formalização e registro\n       Após a assinatura, o contrato deve ser levado ao cartório para reconhecimento de firma, o que confere maior segurança jurídica. A escritura pública deve ser lavrada em Cartório de Notas, especialmente em casos de imóveis de alto valor ou financiados, e o registro da escritura no Cartório de Registro de Imóveis é o ato que torna o comprador o proprietário legal do imóvel.\n       8. Due diligence prévia\n       Antes da formalização, é essencial realizar uma análise completa da documentação do imóvel, verificando certidões negativas, matrícula atualizada, existência de ônus reais e ações judiciais, para evitar fraudes e garantir a segurança da transação.\n       9. Cláusulas especiais (quando aplicáveis)\n       Podem ser incluídas cláusulas específicas como pacto de melhor comprador, retrovenda, venda a contento (condição suspensiva) e preempção (direito de preferência), que devem estar claras e, quando necessário, registradas na matrícula do imóvel.\n       10. Transparência e clareza\n       Todo o contrato deve ser redigido de forma clara, completa e sem brechas, evitando termos ambíguos que possam gerar interpretações equivocadas ou litígios futuros. O ideal é contar com o auxílio de um advogado especializado para elaboração e revisão do contrato\n\n       "

def tmplAvaliacaoSeg3 : String :=
  "\n       \n       Inclua as seguintes informações chaves seções:\n\n       1. Resumo do contrato:\n          - Partes envolvidas\n          - Objeto do contrato (descrição do imóvel)\n          - Finalidade da compra e venda\n          - Principais termos e condições\n          - Datas importantes (data de assinatura, prazo para entrega, rescisão, etc.)\n          - Obrigações financeiras (preço, forma de pagamento, multas, etc.)\n\n       2. Avaliação de riscos:\n          - Identifique e explique os principais riscos para o vendedor\n          - Identifique e explique os principais riscos para o comprador\n\n       3. Pontos fortes e pontos fracos:\n          - Liste e analise os pontos fortes para o vendedor\n          - Liste e analise os pontos fortes para o comprador\n          - Liste e analise os pontos fracos para o vendedor\n          - Liste e analise os pontos fracos para o comprador\n\n       4. Sugestões de ajustes nas cláusulas:\n          - Recomendações específicas para proteger os interesses do vendedor\n          - Recomendações específicas para proteger os interesses do comprador\n\n       5. Resumo da anáilse e recomendações de melhoria do texto do contrato.\n\n       Analise com base na legislação imobiliária brasileira, jurisprudência e práticas contratuais comuns no mercado imobiliário do Brasil.\n \n       Se o texto não for de um contrato de copra e venda de imóvel, forneça uma mensagem explicando que o texto não atende aos requisitos do contrato de compra e venda de imóveis.\n    "

def tmplAvaliacao : String :=
  tmplAvaliacaoSeg1 ++ "\x7binstructions\x7d" ++ tmplAvaliacaoSeg2 ++ "\x7bcontent\x7d" ++ tmplAvaliacaoSeg3

def tmplSummarySeg1 : String :=
  "\n    "

def tmplSummarySeg2 : String :=
  "\n    \n    Por favor, forneça um resumo abrangente do seguinte contrato:\n    \n    "

def tmplSummarySeg3 : String :=
  "\n    \n    Inclua informações-chave como:\n    1. Partes envolvidas\n    2. Contract purpose\n    3. Key terms and conditions\n    4. Important dates (effective date, termination, etc.)\n    5. Financial obligations\n    6. Notable clauses or provisions\n    "

def tmplSummary : String :=
  tmplSummarySeg1 ++ "\x7binstructions\x7d" ++ tmplSummarySeg2 ++ "\x7bcontent\x7d" ++ tmplSummarySeg3

def tmplRiskSeg1 : String :=
  "\n    "

def tmplRiskSeg2 : String :=
  "\n    \n    Please analyze the following contract and identify potential risks:\n    \n    "

def tmplRiskSeg3 : String :=
  "\n    \n    Focus on:\n    1. Ambiguous language or clauses\n    2. Unfavorable terms\n    3. Missing protections\n    4. Liability concerns\n    5. Termination risks\n    6. Compliance issues\n    \n    For each risk identified, please provide:\n    - Description of the risk\n    - Potential impact\n    - Suggested mitigation strategy\n    "

def tmplRisk : String :=
  tmplRiskSeg1 ++ "\x7binstructions\x7d" ++ tmplRiskSeg2 ++ "\x7bcontent\x7d" ++ tmplRiskSeg3

def tmplComplianceSeg1 : String :=
  "\n    "

def tmplComplianceSeg2 : String :=
  "\n    \n    Please review the following contract for legal compliance issues:\n    \n    "

def tmplComplianceSeg3 : String :=
  "\n    \n    Consider:\n    1. Jurisdiction-specific requirements\n    2. Industry regulations\n    3. Standard legal protections\n    4. Required disclosures\n    5. Enforceability concerns\n    6. Recent legal developments that might affect this contract\n    \n    Provide a compliance assessment with specific references to sections that may need revision.\n    "

def tmplCompliance : String :=
  tmplComplianceSeg1 ++ "\x7binstructions\x7d" ++ tmplComplianceSeg2 ++ "\x7bcontent\x7d" ++ tmplComplianceSeg3

def tmplCustomSeg1 : String :=
  "\n    "

def tmplCustomSeg2 : String :=
  "\n    \n    Please analyze the following contract with respect to this specific question:\n    \n    "

def tmplCustomSeg3 : String :=
  "\n    \n    Contract:\n    "

def tmplCustomSeg4 : String :=
  "\n    \n    Provide a detailed answer with references to relevant sections of the contract.\n    "

def tmplCustom : String :=
  tmplCustomSeg1 ++ "\x7binstructions\x7d" ++ tmplCustomSeg2 ++ "\x7bcustom_query\x7d" ++ tmplCustomSeg3 ++ "\x7bcontent\x7d" ++ tmplCustomSeg4

/-- `PROMPT_TEMPLATES` (src/utils/prompt.py lines 4-136), as an ordered
association list (Python dict keys are unique, so `find?` models its
lookup). -/
def PROMPT_TEMPLATES : List (String × String) :=
  [("Avaliação de Contrato de Compra e Venda de Imóveis", tmplAvaliacao),
   ("Contract Summary", tmplSummary),
   ("Risk Assessment", tmplRisk),
   ("Legal Compliance Check", tmplCompliance),
   ("Custom Query", tmplCustom)]

/-- `PROMPT_TEMPLATES.get(analysis_type, ...)`: the stored template, if the
label is a key. -/
def lookupTemplate (analysis_type : String) : Option String :=
  (PROMPT_TEMPLATES.find? (fun kv => kv.1 == analysis_type)).map (fun kv => kv.2)

/-- The fallback template of `format_prompt`. -/
def fallbackTemplate : String :=
  "Please analyze the following contract: " ++ "\x7bcontent\x7d"

/-- The template chosen by `format_prompt` for a label. -/
def chosenTemplate (analysis_type : String) : String :=
  (lookupTemplate analysis_type).getD fallbackTemplate

/-- Lookup in an association list where a LATER binding for the same key
shadows an earlier one — the semantics of the Python dict literal
`\x7b"content": ..., "custom_query": ..., **kwargs\x7d`. -/
def lookupLast (l : List (String × String)) (k : String) : Option String :=
  match l with
  | [] => none
  | (k2, v) :: rest =>
    match lookupLast rest k with
    | some v2 => some v2
    | none => if k2 == k then some v else none

/-- The binding map `format_vars` built by `format_prompt`: `content`,
`custom_query or ""`, then the extra keyword values. -/
def formatVars (content : String) (custom_query : Option String)
    (kwargs : List (String × String)) : String → Option String :=
  fun n =>
    lookupLast ([("content", content), ("custom_query", custom_query.getD "")] ++ kwargs) n

/-- `format_prompt` (src/utils/prompt.py lines 138-170).  `custom_query`
is `Optional[str]` (the Python `custom_query or ""` and `Option.getD ""`
agree on all three cases `None` / `""` / non-empty); the `**kwargs` are an
association list of extra named values; the `Except` result models
`template.format(**format_vars)` raising. -/
def format_prompt (analysis_type content : String) (custom_query : Option String)
    (kwargs : List (String × String)) : Except String String :=
  pyFormat (chosenTemplate analysis_type) (formatVars content custom_query kwargs)

/-! ### Theorems about the prompt formatter -/

theorem noBraces_append {a b : List Char} (ha : noBraces a = true)
    (hb : noBraces b = true) : noBraces (a ++ b) = true := by
  simp only [noBraces, List.all_append, Bool.and_eq_true]
  exact ⟨ha, hb⟩

set_option maxRecDepth 40000 in
theorem noBraces_tmplAvaliacaoSeg2 : noBraces tmplAvaliacaoSeg2.data = true := by decide

set_option maxRecDepth 40000 in
theorem noBraces_tmplAvaliacaoSeg3 : noBraces tmplAvaliacaoSeg3.data = true := by decide

/-- The result shape shared by the four two-field templates: formatting
succeeds, the content value occurs verbatim, and no brace remains. -/
theorem instr_content_result (seg1 seg2 seg3 : String)
    (h1 : noBraces seg1.data = true) (h2 : noBraces seg2.data = true)
    (h3 : noBraces seg3.data = true)
    (content instr : String) (cq : Option String)
    (hcontent : noBraces content.data = true) (hinstr : noBraces instr.data = true) :
    ∃ out,
      pyFormat (seg1 ++ "\x7binstructions\x7d" ++ seg2 ++ "\x7bcontent\x7d" ++ seg3)
          (formatVars content cq [("instructions", instr)]) = .ok out ∧
      ContainsSub out content ∧ noBraces out.data = true := by
  refine ⟨seg1 ++ (instr ++ (seg2 ++ (content ++ seg3))), ?_, ?_, ?_⟩
  · exact pyFormat_instr_content seg1 seg2 seg3 h1 h2 h3 _ instr content rfl rfl
  · refine ⟨seg1 ++ (instr ++ seg2), seg3, ?_⟩
    simp only [String.append_assoc]
  · simp only [String.data_append]
    exact noBraces_append h1 (noBraces_append hinstr (noBraces_append h2
      (noBraces_append hcontent h3)))

set_option maxRecDepth 40000 in
/-- C7: for each of the five stored analysis-type labels, supplying values
for every referenced field (content, instructions, and for `"Custom
Query"` also the custom query) makes `format_prompt` succeed with a prompt
that contains the supplied content verbatim and holds no unresolved
replacement field (no brace at all, the supplied values being brace-free);
for any label that is not a key of the store, the fallback template is
returned with the content substituted and no other field. -/
theorem format_prompt_fills_templates (content instr : String) (cq : Option String)
    (hcontent : noBraces content.data = true) (hinstr : noBraces instr.data = true)
    (hcq : noBraces (cq.getD "").data = true) :
    (∃ out, format_prompt "Avaliação de Contrato de Compra e Venda de Imóveis"
        content cq [("instructions", instr)] = .ok out ∧
      ContainsSub out content ∧ noBraces out.data = true) ∧
    (∃ out, format_prompt "Contract Summary" content cq [("instructions", instr)] = .ok out ∧
      ContainsSub out content ∧ noBraces out.data = true) ∧
    (∃ out, format_prompt "Risk Assessment" content cq [("instructions", instr)] = .ok out ∧
      ContainsSub out content ∧ noBraces out.data = true) ∧
    (∃ out, format_prompt "Legal Compliance Check" content cq [("instructions", instr)] = .ok out ∧
      ContainsSub out content ∧ noBraces out.data = true) ∧
    (∃ out, format_prompt "Custom Query" content cq [("instructions", instr)] = .ok out ∧
      ContainsSub out content ∧ noBraces out.data = true) ∧
    (∀ label, lookupTemplate label = none →
      format_prompt label content cq [("instructions", instr)]
          = .ok ("Please analyze the following contract: " ++ content) ∧
      noBraces ("Please analyze the following contract: " ++ content).data = true) := by
  refine ⟨?_, ?_, ?_, ?_, ?_, ?_⟩
  · rw [format_prompt,
      show chosenTemplate "Avaliação de Contrato de Compra e Venda de Imóveis"
        = tmplAvaliacao from rfl, tmplAvaliacao]
    exact instr_content_result _ _ _ (by decide) noBraces_tmplAvaliacaoSeg2
      noBraces_tmplAvaliacaoSeg3 content instr cq hcontent hinstr
  · rw [format_prompt, show chosenTemplate "Contract Summary" = tmplSummary from rfl,
      tmplSummary]
    exact instr_content_result _ _ _ (by decide) (by decide) (by decide)
      content instr cq hcontent hinstr
  · rw [format_prompt, show chosenTemplate "Risk Assessment" = tmplRisk from rfl,
      tmplRisk]
    exact instr_content_result _ _ _ (by decide) (by decide) (by decide)
      content instr cq hcontent hinstr
  · rw [format_prompt, show chosenTemplate "Legal Compliance Check" = tmplCompliance from rfl,
      tmplCompliance]
    exact instr_content_result _ _ _ (by decide) (by decide) (by decide)
      content instr cq hcontent hinstr
  · rw [format_prompt, show chosenTemplate "Custom Query" = tmplCustom from rfl,
      tmplCustom]
    refine ⟨tmplCustomSeg1 ++ (instr ++ (tmplCustomSeg2 ++ ((cq.getD "")
      ++ (tmplCustomSeg3 ++ (content ++ tmplCustomSeg4))))), ?_, ?_, ?_⟩
    · exact pyFormat_instr_query_content _ _ _ _ (by decide) (by decide) (by decide)
        (by decide) _ instr (cq.getD "") content rfl rfl rfl
    · refine ⟨tmplCustomSeg1 ++ (instr ++ (tmplCustomSeg2 ++ ((cq.getD "")
        ++ tmplCustomSeg3))), tmplCustomSeg4, ?_⟩
      simp only [String.append_assoc]
    · simp only [String.data_append]
      exact noBraces_append (by decide) (noBraces_append hinstr (noBraces_append (by decide)
        (noBraces_append hcq (noBraces_append (by decide)
          (noBraces_append hcontent (by decide))))))
  · intro label hlabel
    rw [format_prompt, show chosenTemplate label
        = (lookupTemplate label).getD fallbackTemplate from rfl, hlabel, Option.getD_none,
      fallbackTemplate]
    refine ⟨pyFormat_content_only _ (by decide) _ content rfl, ?_⟩
    simp only [String.data_append]
    exact noBraces_append (by decide) hcontent

/-- Witness for `format_prompt_fills_templates`: the specification's
end-to-end scenario `format("Risk Assessment", content="X",
instructions="focus on termination")`. -/
theorem format_prompt_fills_templates_witness :
    ∃ out, format_prompt "Risk Assessment" "X" none
        [("instructions", "focus on termination")] = .ok out ∧
      ContainsSub out "X" ∧ noBraces out.data = true :=
  (format_prompt_fills_templates "X" "focus on termination" none
    (by decide) (by decide) (by decide)).2.2.1

theorem lookupLast_cons (k2 v2 : String) (rest : List (String × String)) (k : String) :
    lookupLast ((k2, v2) :: rest) k
      = match lookupLast rest k with
        | some v => some v
        | none => if k2 == k then some v2 else none := rfl

theorem lookupLast_append (l1 l2 : List (String × String)) (k : String) :
    lookupLast (l1 ++ l2) k
      = match lookupLast l2 k with
        | some v => some v
        | none => lookupLast l1 k := by
  induction l1 with
  | nil =>
    simp only [List.nil_append, lookupLast]
    cases lookupLast l2 k <;> rfl
  | cons kv rest ih =>
    obtain ⟨k2, v2⟩ := kv
    rw [List.cons_append, lookupLast_cons, lookupLast_cons, ih]
    cases lookupLast l2 k <;> cases lookupLast rest k <;> rfl

set_option maxRecDepth 40000 in
/-- C8: all five stored templates reference `\x7binstructions\x7d` (as
their first field), so `format_prompt` on any stored label without an
`instructions` value among the extra keyword values fails with the modeled
missing-key error instead of returning a prompt. -/
theorem format_prompt_missing_instructions (content : String) (cq : Option String)
    (kwargs : List (String × String))
    (hkw : lookupLast kwargs "instructions" = none) :
    format_prompt "Avaliação de Contrato de Compra e Venda de Imóveis" content cq kwargs
        = .error "KeyError: instructions" ∧
    format_prompt "Contract Summary" content cq kwargs = .error "KeyError: instructions" ∧
    format_prompt "Risk Assessment" content cq kwargs = .error "KeyError: instructions" ∧
    format_prompt "Legal Compliance Check" content cq kwargs
        = .error "KeyError: instructions" ∧
    format_prompt "Custom Query" content cq kwargs = .error "KeyError: instructions" := by
  have hvars : formatVars content cq kwargs "instructions" = none := by
    simp only [formatVars]
    rw [lookupLast_append, hkw]
    rfl
  refine ⟨?_, ?_, ?_, ?_, ?_⟩
  · rw [format_prompt,
      show chosenTemplate "Avaliação de Contrato de Compra e Venda de Imóveis"
        = tmplAvaliacao from rfl,
      show tmplAvaliacao = tmplAvaliacaoSeg1 ++ "\x7binstructions\x7d"
          ++ (tmplAvaliacaoSeg2 ++ "\x7bcontent\x7d" ++ tmplAvaliacaoSeg3) from by
        rw [tmplAvaliacao]; simp only [String.append_assoc]]
    exact pyFormat_missing_instructions _ _ (by decide) _ hvars
  · rw [format_prompt, show chosenTemplate "Contract Summary" = tmplSummary from rfl,
      show tmplSummary = tmplSummarySeg1 ++ "\x7binstructions\x7d"
          ++ (tmplSummarySeg2 ++ "\x7bcontent\x7d" ++ tmplSummarySeg3) from by
        rw [tmplSummary]; simp only [String.append_assoc]]
    exact pyFormat_missing_instructions _ _ (by decide) _ hvars
  · rw [format_prompt, show chosenTemplate "Risk Assessment" = tmplRisk from rfl,
      show tmplRisk = tmplRiskSeg1 ++ "\x7binstructions\x7d"
          ++ (tmplRiskSeg2 ++ "\x7bcontent\x7d" ++ tmplRiskSeg3) from by
        rw [tmplRisk]; simp only [String.append_assoc]]
    exact pyFormat_missing_instructions _ _ (by decide) _ hvars
  · rw [format_prompt, show chosenTemplate "Legal Compliance Check" = tmplCompliance from rfl,
      show tmplCompliance = tmplComplianceSeg1 ++ "\x7binstructions\x7d"
          ++ (tmplComplianceSeg2 ++ "\x7bcontent\x7d" ++ tmplComplianceSeg3) from by
        rw [tmplCompliance]; simp only [String.append_assoc]]
    exact pyFormat_missing_instructions _ _ (by decide) _ hvars
  · rw [format_prompt, show chosenTemplate "Custom Query" = tmplCustom from rfl,
      show tmplCustom = tmplCustomSeg1 ++ "\x7binstructions\x7d"
          ++ (tmplCustomSeg2 ++ "\x7bcustom_query\x7d" ++ tmplCustomSeg3
            ++ "\x7bcontent\x7d" ++ tmplCustomSeg4) from by
        rw [tmplCustom]; simp only [String.append_assoc]]
    exact pyFormat_missing_instructions _ _ (by decide) _ hvars

/-- Witness for `format_prompt_missing_instructions`: no extra keyword
values at all. -/
theorem format_prompt_missing_instructions_witness :
    format_prompt "Contract Summary" "C" none [] = .error "KeyError: instructions" :=
  (format_prompt_missing_instructions "C" none [] rfl).2.1

/-- C10: an extra keyword value whose name is not referenced by the chosen
template changes nothing — `format_prompt` with the extra binding appended
returns exactly the result of the call without it. -/
theorem format_prompt_ignores_extras (analysis_type content : String) (cq : Option String)
    (kwargs : List (String × String)) (name v : String)
    (hname : name ∉ templateRefs (chosenTemplate analysis_type)) :
    format_prompt analysis_type content cq (kwargs ++ [(name, v)])
      = format_prompt analysis_type content cq kwargs := by
  rw [format_prompt, format_prompt, pyFormat, pyFormat]
  congr 1
  apply pyFormatAux_congr
  intro n hn
  have hne : (name == n) = false := by
    have : name ≠ n := fun he => hname (he ▸ hn)
    simp [this]
  simp only [formatVars]
  rw [show ([("content", content), ("custom_query", cq.getD "")] ++ (kwargs ++ [(name, v)]))
      = (([("content", content), ("custom_query", cq.getD "")] ++ kwargs) ++ [(name, v)])
    from (List.append_assoc _ _ _).symm]
  rw [lookupLast_append _ [(name, v)] n]
  have hsingle : lookupLast [(name, v)] n = none := by
    simp [lookupLast, hne]
  rw [hsingle]

/-- Witness for `format_prompt_ignores_extras`: an unrecognized label (so
the fallback template is chosen) and an extra `notes` value. -/
theorem format_prompt_ignores_extras_witness :
    format_prompt "Unknown Type" "C" none ([] ++ [("notes", "N")])
      = format_prompt "Unknown Type" "C" none [] :=
  format_prompt_ignores_extras "Unknown Type" "C" none [] "notes" "N" (by decide)

/-! ### src/streamlit_app.py — PDF text extraction

`extract_text_from_pdf` opens the uploaded bytes with `pdfplumber` and
joins the page texts.  The parse outcome is the input: `.error` models
`pdfplumber` raising (any failure inside the `try`), `.ok pages` a parsed
document whose pages each yield `p.extract_text()` — a string or `None`. -/

/-- Python `filter(None, texts)` over optional page texts: keep the truthy
values (drop `None` and `""`). -/
def pyFilterTruthy : List (Option String) → List String
  | [] => []
  | o :: rest =>
    if pyTruthy o then (o.getD "") :: pyFilterTruthy rest else pyFilterTruthy rest

/-- `extract_text_from_pdf` (src/streamlit_app.py lines 96-125):
`"\n\n".join(filter(None, (p.extract_text() for p in pdf.pages)))`, with
any exception converted to `""`. -/
def extract_text_from_pdf (pdf : Except String (List (Option String))) : String :=
  match pdf with
  | .ok pdfPages => String.intercalate "\n\n" (pyFilterTruthy pdfPages)
  | .error _ => ""

theorem pyFilterTruthy_eq (pages : List (Option String)) :
    pyFilterTruthy pages = (pages.filterMap id).filter (fun s => s != "") := by
  induction pages with
  | nil => rfl
  | cons o rest ih =>
    cases o with
    | none =>
      simp only [pyFilterTruthy, pyTruthy, List.filterMap_cons, ih]
      rfl
    | some s =>
      by_cases hs : s = ""
      · subst hs
        simp [pyFilterTruthy, pyTruthy, List.filterMap_cons, ih]
      · have ht : pyTruthy (some s) = true := by simp [pyTruthy, hs]
        simp [pyFilterTruthy, ht, List.filterMap_cons, List.filter_cons, hs, ih]

/-- C9: document ingestion joins the page texts that are neither `None`
nor empty with a blank line between them, and converts any parse failure
into `""`; on pages extracting to `"Clause A"`, `""`, `"Clause B"` the
result is `"Clause A\n\nClause B"`. -/
theorem extract_text_joins_nonempty_pages :
    (∀ e, extract_text_from_pdf (.error e) = "") ∧
    (∀ pages, extract_text_from_pdf (.ok pages)
        = String.intercalate "\n\n" ((pages.filterMap id).filter (fun s => s != ""))) ∧
    extract_text_from_pdf (.ok [some "Clause A", some "", some "Clause B"])
      = "Clause A\n\nClause B" := by
  refine ⟨fun e => rfl, fun pages => ?_, by decide⟩
  rw [extract_text_from_pdf, pyFilterTruthy_eq]
